import Mathlib

/-!
Shallow embedding of `mediaimporter.emby` (`src/emby/player.py` and
`src/emby/server.py`).

Python values that can be `None` are modelled as `Option`; Python
truthiness of strings and numbers is modelled explicitly (`None`, `""`
and `0` are falsy).  Stateful methods become functions from an
environment (the host/playback surface at the instant of the call) and
a state to a new state together with the list of outbound remote calls
they emit.  Raising code returns `Except String`.
-/

namespace Emby

/-- Python truthiness of an optional string: `None` and `""` are falsy. -/
def truthyStr : Option String → Bool
  | none => false
  | some s => s ≠ ""

/-- Python truthiness of an optional number: `None` and `0` are falsy. -/
def truthyNat : Option Nat → Bool
  | none => false
  | some n => n ≠ 0

/-- Python `str.split(sep)` with a one-character separator, on the
character list: splitting the empty string yields `[""]`. -/
def splitCharList (sep : Char) : List Char → List (List Char)
  | [] => [[]]
  | c :: rest =>
    match splitCharList sep rest with
    | [] => [[]]
    | h :: t => if c = sep then [] :: h :: t else (c :: h) :: t

/-- Python `str.split(sep)` with a one-character separator. -/
def pySplit (s : String) (sep : Char) : List String :=
  (splitCharList sep s.toList).map (fun cs => String.mk cs)

/-- Python `sep.join(parts)`. -/
def pyJoin (sep : String) : List String → String
  | [] => ""
  | [s] => s
  | s :: rest => s ++ sep ++ pyJoin sep rest

/-- From `emby/constants.py` (not under `src/`).  Modelled from the spec:
the progress event names recognised by the server are TimeUpdate, Pause
and Unpause. -/
def PLAYING_PROGRESS_EVENT_TIME_UPDATE : String := "TimeUpdate"

def PLAYING_PROGRESS_EVENT_PAUSE : String := "Pause"

def PLAYING_PROGRESS_EVENT_UNPAUSE : String := "Unpause"

/-- Modelled from the spec: play method constant "DirectStream". -/
def PLAYING_PLAY_METHOD_DIRECT_STREAM : String := "DirectStream"

/-- From `emby/api.py` (not under `src/`).  Modelled from the spec:
1 second = 10,000,000 ticks. -/
def secondsToTicks (seconds : Nat) : Nat := seconds * 10000000

/-- The video-info tag of the playing (or an imported) item; `uniqueID`
is the result of `getUniqueID(EMBY_PROTOCOL)` (possibly the empty
string when no id is set under the protocol namespace). -/
structure VideoInfoTag where
  uniqueID : String
  deriving Repr, DecidableEq

/-- An item imported through `xbmcmediaimport`; `getVideoInfoTag()` may
return nothing. -/
structure ImportedItem where
  tag : Option VideoInfoTag
  deriving Repr, DecidableEq

/-- A configured media provider (host-owned); `getIdentifier()` is
`identifier`. -/
structure MediaProvider where
  identifier : String
  deriving Repr, DecidableEq

/-- The host/playback surface as observed during one callback:
`getPlayingFile`, `isPlayingVideo`, `getVideoInfoTag`,
`xbmcmediaimport.getImportedItemsByProvider`, `time.time()`, the
session id freshly produced by `uuid4` (hex, never empty in reality),
and `getTime`/`getTotalTime` in seconds (`none` when reading them
raises). -/
structure Env where
  playingFile : String
  isPlayingVideo : Bool
  videoInfoTag : Option VideoInfoTag
  importedItems : MediaProvider → List ImportedItem
  now : Nat
  sessionId : String
  playbackTimes : Option (Nat × Nat)

/-- The body of a `/Sessions/Playing*` POST as assembled by
`Player._preparePlayingData`; fields absent from the Python dict are
`none`. -/
structure PlayingData where
  itemId : Option String
  playSessionId : Option String
  playlistIndex : Nat
  playlistLength : Nat
  failed : Option Bool
  queueableMediaTypes : Option String
  canSeek : Option Bool
  playMethod : Option String
  isPaused : Option Bool
  positionTicks : Option Nat
  runTimeTicks : Option Nat
  eventName : Option String
  deriving Repr, DecidableEq

/-- Which sessions endpoint a remote POST from the player targets. -/
inductive CallKind where
  | playing
  | progress
  | stopped
  deriving Repr, DecidableEq

/-- One outbound remote call emitted by the player (the `ApiPost` to the
corresponding `BuildSessionsPlaying*Url`). -/
structure RemoteCall where
  kind : CallKind
  data : PlayingData
  deriving Repr, DecidableEq

/-- The mutable state of `Player`. The provider registry is a Python
dict, i.e. an insertion-ordered association list keyed by the provider
identifier. -/
structure PlayerState where
  progressInterval : Nat
  lastProgressReport : Option Nat
  providers : List (String × MediaProvider)
  file : Option String
  item : Option ImportedItem
  itemId : Option String
  mediaProvider : Option MediaProvider
  playSessionId : Option String
  paused : Bool

namespace PlayerState

/-- `Player.__init__`: `progressInterval or 10` (so `None` and `0` both
fall back to 10). -/
def init (progressInterval : Option Nat) : PlayerState :=
  { progressInterval := if truthyNat progressInterval then progressInterval.getD 10 else 10
    lastProgressReport := none
    providers := []
    file := none
    item := none
    itemId := none
    mediaProvider := none
    playSessionId := none
    paused := false }

end PlayerState

/-- Python dict assignment `d[k] = v`: replace the value of an existing
key in place, otherwise append (insertion order preserved). -/
def dictSet : List (String × MediaProvider) → String → MediaProvider →
    List (String × MediaProvider)
  | [], k, v => [(k, v)]
  | kv :: rest, k, v =>
    if kv.1 = k then (k, v) :: rest else kv :: dictSet rest k v

/-- Python `del d[k]`: raises `KeyError` when the key is absent. -/
def dictDel : List (String × MediaProvider) → String →
    Except String (List (String × MediaProvider))
  | [], _ => .error "KeyError"
  | kv :: rest, k =>
    if kv.1 = k then .ok rest else (dictDel rest k).map (fun d => kv :: d)

/-- Python dict lookup `d[k]`/`k in d`. -/
def dictLookup : List (String × MediaProvider) → String → Option MediaProvider
  | [], _ => none
  | kv :: rest, k => if kv.1 = k then some kv.2 else dictLookup rest k

namespace Player

/-- `Player.AddProvider`: raises `ValueError` on a falsy (null) provider
argument; otherwise stores the provider under its identifier. -/
def AddProvider (s : PlayerState) (mediaProvider : Option MediaProvider) :
    Except String PlayerState :=
  match mediaProvider with
  | none => .error "invalid mediaProvider"
  | some p => .ok { s with providers := dictSet s.providers p.identifier p }

/-- `Player.RemoveProvider`: raises `ValueError` on a falsy (null)
provider argument; `del` raises `KeyError` when the identifier was
never added. -/
def RemoveProvider (s : PlayerState) (mediaProvider : Option MediaProvider) :
    Except String PlayerState :=
  match mediaProvider with
  | none => .error "invalid mediaProvider"
  | some p =>
    match dictDel s.providers p.identifier with
    | .ok d => .ok { s with providers := d }
    | .error e => .error e

/-- `Player._reset`: clears file, item, itemId, mediaProvider,
playSessionId and paused (and nothing else). -/
def reset (s : PlayerState) : PlayerState :=
  { s with file := none, item := none, itemId := none, mediaProvider := none,
           playSessionId := none, paused := false }

/-- `Player._preparePlayingData`. -/
def preparePlayingData (env : Env) (s : PlayerState) (stopped : Bool)
    (event : Option String) (failed : Bool) : PlayingData :=
  { itemId := s.itemId
    playSessionId := s.playSessionId
    playlistIndex := 0
    playlistLength := 1
    failed := if stopped then some failed else none
    queueableMediaTypes := if stopped then none else some "Audio,Video"
    canSeek := if stopped then none else some true
    playMethod := if stopped then none else some PLAYING_PLAY_METHOD_DIRECT_STREAM
    isPaused := if stopped then none else some s.paused
    positionTicks := if stopped then none else env.playbackTimes.map (fun t => secondsToTicks t.1)
    runTimeTicks := if stopped then none else env.playbackTimes.map (fun t => secondsToTicks t.2)
    eventName := if stopped then none else event }

/-- The provider loop of `Player._startPlayback`: first provider (in
registry order) whose imported items contain at least one item whose
video-info tag carries the playing item's unique id; returns that
provider together with the first matching item. -/
def findMatch (providers : List (String × MediaProvider))
    (items : MediaProvider → List ImportedItem) (itemId : String) :
    Option (MediaProvider × ImportedItem) :=
  match providers with
  | [] => none
  | (_, p) :: rest =>
    match (items p).filter
        (fun it => match it.tag with
          | none => false
          | some t => t.uniqueID = itemId) with
    | [] => findMatch rest items itemId
    | m :: _ => some (p, m)

/-- `Player._startPlayback`. -/
def startPlayback (env : Env) (s : PlayerState) : PlayerState × List RemoteCall :=
  if ¬ truthyStr s.file then (s, [])
  else if ¬ env.isPlayingVideo then (s, [])
  else
    match env.videoInfoTag with
    | none => (s, [])
    | some tag =>
      let s1 := { s with itemId := some tag.uniqueID }
      if tag.uniqueID = "" then (s1, [])
      else
        match findMatch s1.providers env.importedItems tag.uniqueID with
        | none => (s1, [])
        | some (prov, item) =>
          let s2 := { s1 with item := some item, mediaProvider := some prov,
                              playSessionId := some env.sessionId }
          let data := preparePlayingData env s2 false none false
          ({ s2 with lastProgressReport := some env.now }, [⟨.playing, data⟩])

/-- `Player._reportPlaybackProgress` (default event: time update). -/
def reportPlaybackProgress (env : Env) (s : PlayerState)
    (event : String := PLAYING_PROGRESS_EVENT_TIME_UPDATE) :
    PlayerState × List RemoteCall :=
  match s.item with
  | none => (s, [])
  | some _ =>
    let data := preparePlayingData env s false (some event) false
    ({ s with lastProgressReport := some env.now }, [⟨.progress, data⟩])

/-- `Player._stopPlayback`. -/
def stopPlayback (env : Env) (s : PlayerState) (failed : Bool) :
    PlayerState × List RemoteCall :=
  match s.item with
  | none => (s, [])
  | some _ =>
    let data := preparePlayingData env s true none failed
    (reset s, [⟨.stopped, data⟩])

/-- `Player.Process`: throttled progress poll. -/
def Process (env : Env) (s : PlayerState) : PlayerState × List RemoteCall :=
  if ¬ truthyNat s.lastProgressReport then (s, [])
  else if env.now - s.lastProgressReport.getD 0 < s.progressInterval then (s, [])
  else reportPlaybackProgress env s

/-- The playback-lifecycle callbacks (and the periodic `Process` poll)
dispatched by the host. -/
inductive Event where
  | started
  | avStarted
  | seek
  | seekChapter
  | pausedEvt
  | resumed
  | stoppedEvt
  | ended
  | error
  | process
  deriving Repr, DecidableEq

/-- One host callback applied to a player state: the new state and the
remote calls it emits. -/
def step (env : Env) (e : Event) (s : PlayerState) : PlayerState × List RemoteCall :=
  match e with
  | .started => ({ reset s with file := some env.playingFile }, [])
  | .avStarted => startPlayback env s
  | .seek => reportPlaybackProgress env s
  | .seekChapter => reportPlaybackProgress env s
  | .pausedEvt => reportPlaybackProgress env { s with paused := true }
      PLAYING_PROGRESS_EVENT_PAUSE
  | .resumed => reportPlaybackProgress env { s with paused := false }
      PLAYING_PROGRESS_EVENT_UNPAUSE
  | .stoppedEvt => stopPlayback env s false
  | .ended => stopPlayback env s false
  | .error => stopPlayback env s true
  | .process => Process env s

/-- States reachable from a freshly constructed player by playback
callbacks, `Process` polls, and successful provider
registration/deregistration.  Environments are constrained to produce
non-empty session ids, as `uuid4` does. -/
inductive Reachable : PlayerState → Prop where
  | init (progressInterval : Option Nat) : Reachable (PlayerState.init progressInterval)
  | step (env : Env) (e : Event) (s : PlayerState) :
      Reachable s → env.sessionId ≠ "" → Reachable (step env e s).1
  | addProvider (s : PlayerState) (mp : Option MediaProvider) (s' : PlayerState) :
      Reachable s → AddProvider s mp = .ok s' → Reachable s'
  | removeProvider (s : PlayerState) (mp : Option MediaProvider) (s' : PlayerState) :
      Reachable s → RemoveProvider s mp = .ok s' → Reachable s'

end Player

/-- From `lib/utils.py` (not under `src/`).  Modelled from the spec: URL
builders are pure functions of base URL and path segments; `append`
joins segments onto the base with `/`. -/
def Url.append (base : String) (segments : List String) : String :=
  segments.foldl (fun u seg => u ++ "/" ++ seg) base

/-- From `lib/utils.py` (not under `src/`).  Modelled from the spec: URL
builders are pure functions of base URL, path segments and query
options; `addOptions` attaches the query options to the URL. -/
def Url.addOptions (url : String) (options : List (String × String)) : String :=
  url ++ "?" ++ pyJoin "&" (options.map (fun kv => kv.1 ++ "=" ++ kv.2))

namespace Server

/-- `Server.Info.EMBY_SERVER`. -/
def EMBY_SERVER : String := "Emby Server"

/-- `Server.Info.JELLYFIN_SERVER`. -/
def JELLYFIN_SERVER : String := "Jellyfin Server"

/-- `Server.Info`. `version` holds the string handed to
`semantic_version.Version` (the parse itself lives in the external
`lib/semantic_version` collaborator). `product` stores the result of
`product or Server.Info.EMBY_SERVER`. -/
structure Info where
  id : String
  name : String
  version : String
  product : String
  deriving Repr, DecidableEq

/-- `Server.Info.__init__`: raises `ValueError` when `id` is falsy;
`product or EMBY_SERVER` makes a `None` or empty product default to
"Emby Server". -/
def Info.init (id name version : String) (product : Option String) :
    Except String Info :=
  if id = "" then .error "invalid id"
  else .ok { id := id, name := name, version := version,
             product := if truthyStr product then product.getD "" else EMBY_SERVER }

def Info.isEmbyServer (i : Info) : Bool := i.product = EMBY_SERVER

def Info.isJellyfinServer (i : Info) : Bool := i.product = JELLYFIN_SERVER

def Info.isUnknown (i : Info) : Bool := !i.isEmbyServer && !i.isJellyfinServer

/-- The public-info JSON response: a dict whose relevant keys (Id,
ServerName, Version, ProductName) are present iff the field is `some`. -/
structure PublicInfo where
  id : Option String
  serverName : Option String
  version : Option String
  productName : Option String
  deriving Repr, DecidableEq

/-- `Server.Info.fromPublicInfo`: `.ok none` models Python returning
`None`; `.error` models an uncaught exception escaping the call. -/
def Info.fromPublicInfo (response : Option PublicInfo) : Except String (Option Info) :=
  match response with
  | none => .ok none
  | some resp =>
    match resp.id, resp.serverName, resp.version with
    | some id, some name, some version =>
      let versions := pySplit version '.'
      let productName := resp.productName
      match Info.init id name (pyJoin "." (versions.take 3)) productName with
      | .ok info => .ok (some info)
      | .error e => .error e
    | none, _, _ => .ok none
    | _, none, _ => .ok none
    | _, _, none => .ok none

/-- The authentication-relevant state of a `Server` and its
`Authenticator` collaborator: the provider identifier, the device id
from the provider settings, and the authenticator's token state
(`IsAuthenticated()`, whether a fresh `Authenticate()` call would
succeed, and the `AccessToken()`/`UserId()` it yields). -/
structure State where
  id : String
  deviceId : String
  isAuthenticated : Bool
  authenticateSucceeds : Bool
  accessToken : String
  userId : String
  deriving Repr, DecidableEq

/-- `Server.Authenticate`: already authenticated, or a fresh
authentication succeeds. -/
def Authenticate (s : State) : Bool := s.isAuthenticated || s.authenticateSucceeds

/-- From `emby/request.py` (not under `src/`).  Modelled from the spec:
authenticated requests carry headers derived from access token, user id
and device id. -/
structure Headers where
  authToken : Option String
  userId : Option String
  deviceId : Option String
  deriving Repr, DecidableEq

inductive Method where
  | get
  | post
  | delete
  deriving Repr, DecidableEq

/-- One invocation of the Request/Transport collaborator. -/
structure TransportCall where
  method : Method
  url : String
  headers : Headers
  body : Option (List (String × String))
  deriving Repr, DecidableEq

/-- The result of an authenticated API operation: `failure` models the
`False` sentinel; `response t` models delegation to the transport call
`t` (whose JSON result is returned unchanged). -/
inductive ApiResult where
  | failure
  | response (t : TransportCall)
  deriving Repr, DecidableEq

/-- `Server._authenticate`: on failure logs a warning naming the
provider; returns the flag together with the emitted log lines. -/
def authenticateChecked (s : State) : Bool × List String :=
  if ¬ Authenticate s then
    (false, ["user authentication failed on media provider " ++ s.id])
  else
    (true, [])

def apiCallHeaders (s : State) : Headers :=
  { authToken := some s.accessToken, userId := some s.userId, deviceId := some s.deviceId }

/-- `Server.ApiGet`. -/
def ApiGet (s : State) (url : String) : ApiResult × List String :=
  match authenticateChecked s with
  | (false, logs) => (.failure, logs)
  | (true, logs) =>
    (.response { method := .get, url := url, headers := apiCallHeaders s, body := none }, logs)

/-- `Server.ApiPost`. -/
def ApiPost (s : State) (url : String) (data : List (String × String)) :
    ApiResult × List String :=
  match authenticateChecked s with
  | (false, logs) => (.failure, logs)
  | (true, logs) =>
    (.response { method := .post, url := url, headers := apiCallHeaders s, body := some data },
     logs)

/-- `Server.ApiDelete`. -/
def ApiDelete (s : State) (url : String) : ApiResult × List String :=
  match authenticateChecked s with
  | (false, logs) => (.failure, logs)
  | (true, logs) =>
    (.response { method := .delete, url := url, headers := apiCallHeaders s, body := none },
     logs)

/-- `Server.BuildPlayableItemUrl`, parametrised by the server's API-root
URL (`self._url`). -/
def BuildPlayableItemUrl (apiUrl : String) (mediaType itemId container : String) :
    Except String String :=
  if itemId = "" then .error "Invalid itemId"
  else
    match (if mediaType = "Video" then some "Videos"
           else if mediaType = "Audio" then some "Audio"
           else none) with
    | none => .error ("Invalid mediaType " ++ mediaType)
    | some embyMediaType =>
      let url := Url.append apiUrl [embyMediaType]
      let url := Url.append url [itemId, "stream"]
      let url := if container ≠ "" then url ++ "." ++ (pySplit container ',').headI else url
      .ok (Url.addOptions url [("static", "true")])

end Server

/-! Concrete fixtures used by witnesses and counterexamples. -/

/-- An imported item whose tag carries the unique id "x". -/
def itemX : ImportedItem := ⟨some ⟨"x"⟩⟩

/-- A provider with identifier "prov1". -/
def provP : MediaProvider := ⟨"prov1"⟩

/-- A host surface playing `f.mkv` (unique id "x") at time 50, where
every provider has imported `itemX`. -/
def envMatch : Env :=
  { playingFile := "f.mkv"
    isPlayingVideo := true
    videoInfoTag := some ⟨"x"⟩
    importedItems := fun _ => [itemX]
    now := 50
    sessionId := "deadbeef"
    playbackTimes := none }

/-- Same host surface, but no provider has imported anything. -/
def envNoMatch : Env := { envMatch with importedItems := fun _ => [] }

/-- Same host surface ten seconds later. -/
def envDue : Env := { envMatch with now := 60 }

/-- A fresh player with `provP` registered. -/
def sWithProv : PlayerState := { PlayerState.init none with providers := [("prov1", provP)] }

/-- `sWithProv` after `onPlayBackStarted`. -/
def sFileSet : PlayerState := (Player.step envMatch .started sWithProv).1

/-- `sFileSet` after a successfully matched `onAVStarted`. -/
def sPlaying : PlayerState := (Player.step envMatch .avStarted sFileSet).1

/-- `sFileSet` after an `onAVStarted` whose provider scan found no match. -/
def sAborted : PlayerState := (Player.step envNoMatch .avStarted sFileSet).1

/-- A server whose authenticator holds no token and cannot obtain one. -/
def srvAuthFail : Server.State :=
  { id := "prov1", deviceId := "dev1", isAuthenticated := false,
    authenticateSucceeds := false, accessToken := "", userId := "" }

/-- A server already holding a valid token. -/
def srvAuthOk : Server.State :=
  { id := "prov1", deviceId := "dev1", isAuthenticated := true,
    authenticateSucceeds := false, accessToken := "tok", userId := "user1" }

/-- The stopped-report call emitted when `sPlaying` is stopped at time
60. -/
def cStop : RemoteCall := ⟨.stopped, Player.preparePlayingData envDue sPlaying true none false⟩

/-- The all-or-nothing group that actually holds on reachable states:
item, mediaProvider and playSessionId are set together or unset
together (`itemId` is not a member of the group). -/
def sessionConsistent (s : PlayerState) : Prop :=
  s.item.isSome = s.mediaProvider.isSome ∧ s.item.isSome = truthyStr s.playSessionId

/-! Helper lemmas about the dict model. -/

lemma dictLookup_dictSet_self (d : List (String × MediaProvider)) (k : String)
    (v : MediaProvider) : dictLookup (dictSet d k v) k = some v := by
  induction d with
  | nil => simp [dictSet, dictLookup]
  | cons kv rest ih =>
    by_cases h : kv.1 = k <;> simp [dictSet, dictLookup, h, ih]

lemma dictDel_of_lookup_none (d : List (String × MediaProvider)) (k : String)
    (h : dictLookup d k = none) : dictDel d k = .error "KeyError" := by
  induction d with
  | nil => rfl
  | cons kv rest ih =>
    by_cases hk : kv.1 = k
    · simp [dictLookup, hk] at h
    · simp [dictLookup, hk] at h
      simp [dictDel, hk, ih h, Except.map]

lemma dictDel_of_lookup_some (d : List (String × MediaProvider)) (k : String)
    (v : MediaProvider) (h : dictLookup d k = some v) :
    ∃ d', dictDel d k = .ok d' := by
  induction d with
  | nil => simp [dictLookup] at h
  | cons kv rest ih =>
    by_cases hk : kv.1 = k
    · exact ⟨rest, by simp [dictDel, hk]⟩
    · simp [dictLookup, hk] at h
      obtain ⟨d', hd'⟩ := ih h
      exact ⟨kv :: d', by simp [dictDel, hk, hd', Except.map]⟩

/-! Claim theorems. -/

/-- Claim C4, counterexample: a public-info response whose `Id` field is
present but empty makes `fromPublicInfo` raise `ValueError` (from
`Info.__init__`) instead of returning absence. -/
theorem fromPublicInfo_empty_id_raises_cex :
    Server.Info.fromPublicInfo (some ⟨some "", some "srv", some "1.2.3", none⟩) =
      .error "invalid id" := rfl

/-- Claim C4 (amended): `fromPublicInfo` returns absence (no Info, no
error) when the response is missing or lacks the id, server-name or
version key; but when the id key is present with an empty value (and
name and version are present) it raises an invalid-argument error
rather than returning absence. -/
theorem fromPublicInfo_missing_fields_absent (r : Server.PublicInfo) :
    ((r.id = none ∨ r.serverName = none ∨ r.version = none) →
        Server.Info.fromPublicInfo (some r) = .ok none)
    ∧ Server.Info.fromPublicInfo none = .ok none
    ∧ (r.id = some "" → r.serverName.isSome = true → r.version.isSome = true →
        Server.Info.fromPublicInfo (some r) = .error "invalid id") := by
  obtain ⟨i, n, v, p⟩ := r
  refine ⟨?_, rfl, ?_⟩
  · rintro (h | h | h)
    · subst h; cases n <;> cases v <;> rfl
    · subst h; cases i <;> cases v <;> rfl
    · subst h; cases i <;> cases n <;> rfl
  · rintro rfl hn hv
    cases n with
    | none => simp at hn
    | some n =>
      cases v with
      | none => simp at hv
      | some v => simp [Server.Info.fromPublicInfo, Server.Info.init]

/-- Witness for C4 at a concrete response missing its id. -/
theorem fromPublicInfo_missing_fields_absent_witness :
    Server.Info.fromPublicInfo (some ⟨none, some "srv", some "1.2.3", none⟩) = .ok none :=
  (fromPublicInfo_missing_fields_absent ⟨none, some "srv", some "1.2.3", none⟩).1 (Or.inl rfl)

/-- Claim C5, counterexample: `AddProvider` accepts a (non-null)
provider whose identifier is the empty string and stores it under the
empty key, instead of rejecting a null/empty identifier. -/
theorem addProvider_empty_identifier_accepted_cex :
    Player.AddProvider (PlayerState.init none) (some ⟨""⟩) =
      .ok { PlayerState.init none with providers := [("", ⟨""⟩)] }
    ∧ dictLookup [("", (⟨""⟩ : MediaProvider))] "" = some ⟨""⟩ := ⟨rfl, rfl⟩

/-- Claim C5 (amended): adding a null provider fails loudly; adding any
non-null provider succeeds and stores it under its identifier (even
when that identifier is empty); removing a null provider fails loudly;
removing a provider whose identifier was never added fails; removing a
present identifier succeeds. -/
theorem provider_registry_add_remove (s : PlayerState) (p : MediaProvider) :
    Player.AddProvider s none = .error "invalid mediaProvider"
    ∧ (∃ s', Player.AddProvider s (some p) = .ok s'
        ∧ dictLookup s'.providers p.identifier = some p)
    ∧ Player.RemoveProvider s none = .error "invalid mediaProvider"
    ∧ (dictLookup s.providers p.identifier = none →
        Player.RemoveProvider s (some p) = .error "KeyError")
    ∧ (∀ v, dictLookup s.providers p.identifier = some v →
        ∃ s', Player.RemoveProvider s (some p) = .ok s') := by
  refine ⟨rfl, ?_, rfl, ?_, ?_⟩
  · exact ⟨_, rfl, dictLookup_dictSet_self s.providers p.identifier p⟩
  · intro h
    simp [Player.RemoveProvider, dictDel_of_lookup_none s.providers p.identifier h]
  · intro v h
    obtain ⟨d', hd'⟩ := dictDel_of_lookup_some s.providers p.identifier v h
    exact ⟨{ s with providers := d' }, by simp [Player.RemoveProvider, hd']⟩

/-- Witness for C5: add then remove `provP` on a fresh player. -/
theorem provider_registry_add_remove_witness :
    (∃ s', Player.AddProvider (PlayerState.init none) (some provP) = .ok s'
      ∧ dictLookup s'.providers provP.identifier = some provP)
    ∧ (∃ s', Player.RemoveProvider sWithProv (some provP) = .ok s') :=
  ⟨(provider_registry_add_remove (PlayerState.init none) provP).2.1,
   (provider_registry_add_remove sWithProv provP).2.2.2.2 provP rfl⟩

/-- Claim C6: each of ApiGet/ApiPost/ApiDelete first checks
authentication; on failure it logs a warning naming the provider and
returns the failure sentinel without any transport call; on success it
delegates to the transport with headers built from the access token,
user id and device id. -/
theorem server_api_calls_check_auth (srv : Server.State) (url : String)
    (data : List (String × String)) :
    (Server.Authenticate srv = false →
      Server.ApiGet srv url =
        (.failure, ["user authentication failed on media provider " ++ srv.id])
      ∧ Server.ApiPost srv url data =
        (.failure, ["user authentication failed on media provider " ++ srv.id])
      ∧ Server.ApiDelete srv url =
        (.failure, ["user authentication failed on media provider " ++ srv.id]))
    ∧ (Server.Authenticate srv = true →
      Server.ApiGet srv url =
        (.response ⟨.get, url, Server.apiCallHeaders srv, none⟩, [])
      ∧ Server.ApiPost srv url data =
        (.response ⟨.post, url, Server.apiCallHeaders srv, some data⟩, [])
      ∧ Server.ApiDelete srv url =
        (.response ⟨.delete, url, Server.apiCallHeaders srv, none⟩, [])) := by
  constructor <;> intro h <;>
    refine ⟨?_, ?_, ?_⟩ <;>
      simp [Server.ApiGet, Server.ApiPost, Server.ApiDelete, Server.authenticateChecked, h]

/-- Witness for C6: a server that cannot authenticate returns the
sentinel and the warning; one that can delegates with the token
headers. -/
theorem server_api_calls_check_auth_witness :
    Server.ApiPost srvAuthFail "u" [] =
      (.failure, ["user authentication failed on media provider " ++ srvAuthFail.id])
    ∧ Server.ApiPost srvAuthOk "u" [] =
      (.response ⟨.post, "u", Server.apiCallHeaders srvAuthOk, some []⟩, []) :=
  ⟨((server_api_calls_check_auth srvAuthFail "u" []).1 rfl).2.1,
   ((server_api_calls_check_auth srvAuthOk "u" []).2 rfl).2.1⟩

/-- Claim C9, counterexample: a response whose ProductName is
"Emby Server" (a ProductName other than absent and "Jellyfin Server")
does not classify as unknown: it classifies as Emby Server. -/
theorem product_emby_not_unknown_cex :
    Server.Info.fromPublicInfo
        (some ⟨some "id1", some "srv", some "4.7.2.1", some "Emby Server"⟩) =
      .ok (some ⟨"id1", "srv", "4.7.2", "Emby Server"⟩)
    ∧ (Server.Info.isUnknown ⟨"id1", "srv", "4.7.2", "Emby Server"⟩) = false
    ∧ (Server.Info.isEmbyServer ⟨"id1", "srv", "4.7.2", "Emby Server"⟩) = true := by
  refine ⟨rfl, rfl, rfl⟩

/-- Claim C9 (amended): for every accepted response the version string
kept is the first three dot-separated components rejoined (so "4.7.2.1"
yields "4.7.2"); the Info classifies as Emby Server when ProductName is
absent, empty, or "Emby Server"; as Jellyfin when ProductName is
"Jellyfin Server"; and as unknown exactly for any other non-empty
ProductName. -/
theorem fromPublicInfo_version_product (id name version : String)
    (product : Option String) (hid : id ≠ "") :
    ∃ info,
      Server.Info.fromPublicInfo (some ⟨some id, some name, some version, product⟩) =
        .ok (some info)
      ∧ info.version = pyJoin "." ((pySplit version '.').take 3)
      ∧ (info.isEmbyServer = true ↔
          (product = none ∨ product = some "" ∨ product = some Server.EMBY_SERVER))
      ∧ (info.isJellyfinServer = true ↔ product = some Server.JELLYFIN_SERVER)
      ∧ (info.isUnknown = true ↔
          ∃ p, product = some p ∧ p ≠ "" ∧ p ≠ Server.EMBY_SERVER
            ∧ p ≠ Server.JELLYFIN_SERVER) := by
  refine ⟨⟨id, name, pyJoin "." ((pySplit version '.').take 3),
    if truthyStr product then product.getD "" else Server.EMBY_SERVER⟩, ?_, rfl, ?_, ?_, ?_⟩
  · simp [Server.Info.fromPublicInfo, Server.Info.init, hid]
  · cases product with
    | none => simp [Server.Info.isEmbyServer, truthyStr]
    | some p =>
      by_cases hp : p = "" <;>
        simp [Server.Info.isEmbyServer, truthyStr, hp, Server.EMBY_SERVER]
  · cases product with
    | none =>
      simp [Server.Info.isJellyfinServer, truthyStr, Server.EMBY_SERVER,
        Server.JELLYFIN_SERVER]
    | some p =>
      by_cases hp : p = "" <;>
        simp [Server.Info.isJellyfinServer, truthyStr, hp, Server.EMBY_SERVER,
          Server.JELLYFIN_SERVER]
  · cases product with
    | none =>
      simp [Server.Info.isUnknown, Server.Info.isEmbyServer, Server.Info.isJellyfinServer,
        truthyStr, Server.EMBY_SERVER, Server.JELLYFIN_SERVER]
    | some p =>
      by_cases hp : p = "" <;>
        simp [Server.Info.isUnknown, Server.Info.isEmbyServer, Server.Info.isJellyfinServer,
          truthyStr, hp, Server.EMBY_SERVER, Server.JELLYFIN_SERVER]

/-- Witness for C9 at version "4.7.2.1" with no ProductName. -/
theorem fromPublicInfo_version_product_witness :
    ∃ info,
      Server.Info.fromPublicInfo (some ⟨some "id1", some "srv", some "4.7.2.1", none⟩) =
        .ok (some info)
      ∧ info.version = pyJoin "." ((pySplit "4.7.2.1" '.').take 3)
      ∧ (info.isEmbyServer = true ↔
          ((none : Option String) = none ∨ (none : Option String) = some ""
            ∨ (none : Option String) = some Server.EMBY_SERVER))
      ∧ (info.isJellyfinServer = true ↔ (none : Option String) = some Server.JELLYFIN_SERVER)
      ∧ (info.isUnknown = true ↔
          ∃ p, (none : Option String) = some p ∧ p ≠ "" ∧ p ≠ Server.EMBY_SERVER
            ∧ p ≠ Server.JELLYFIN_SERVER) :=
  fromPublicInfo_version_product "id1" "srv" "4.7.2.1" none (by decide)

/-- Claim C8: `BuildPlayableItemUrl 'Video' 'abc123' 'mkv,mp4'` yields a
URL ending in `/Videos/abc123/stream.mkv?static=true` (only the first
comma-separated container is used), and any media type other than Video
or Audio with a non-empty item id fails with invalid-argument. -/
theorem buildPlayableItemUrl_video_and_invalid (apiUrl : String) :
    (∃ p, Server.BuildPlayableItemUrl apiUrl "Video" "abc123" "mkv,mp4" =
        .ok (p ++ "/Videos/abc123/stream.mkv?static=true"))
    ∧ (∀ mediaType itemId container, itemId ≠ "" → mediaType ≠ "Video" →
        mediaType ≠ "Audio" →
        Server.BuildPlayableItemUrl apiUrl mediaType itemId container =
          .error ("Invalid mediaType " ++ mediaType)) := by
  constructor
  · refine ⟨apiUrl, ?_⟩
    have h : Server.BuildPlayableItemUrl apiUrl "Video" "abc123" "mkv,mp4" =
        .ok (apiUrl ++ "/" ++ "Videos" ++ "/" ++ "abc123" ++ "/" ++ "stream" ++ "." ++ "mkv"
          ++ "?" ++ ("static" ++ "=" ++ "true")) := rfl
    rw [h]
    simp only [String.append_assoc]
    rfl
  · intro mediaType itemId container hItem hVideo hAudio
    simp [Server.BuildPlayableItemUrl, hItem, hVideo, hAudio]

/-- Witness for C8 at a concrete API-root URL and media type Subtitle. -/
theorem buildPlayableItemUrl_video_and_invalid_witness :
    (∃ p, Server.BuildPlayableItemUrl "http://host/emby" "Video" "abc123" "mkv,mp4" =
        .ok (p ++ "/Videos/abc123/stream.mkv?static=true"))
    ∧ Server.BuildPlayableItemUrl "http://host/emby" "Subtitle" "abc123" "" =
        .error ("Invalid mediaType " ++ "Subtitle") :=
  ⟨(buildPlayableItemUrl_video_and_invalid "http://host/emby").1,
   (buildPlayableItemUrl_video_and_invalid "http://host/emby").2 "Subtitle" "abc123" ""
     (by decide) (by decide) (by decide)⟩

/-! Helper lemmas about the player transitions. -/

lemma sessionConsistent_reset (s : PlayerState) : sessionConsistent (Player.reset s) := by
  simp [sessionConsistent, Player.reset, truthyStr]

lemma sessionConsistent_startPlayback (env : Env) (s : PlayerState)
    (h : sessionConsistent s) (hsid : env.sessionId ≠ "") :
    sessionConsistent (Player.startPlayback env s).1 := by
  unfold Player.startPlayback
  split
  · exact h
  split
  · exact h
  split
  · exact h
  rename_i tag _
  split
  · exact h
  cases hm : Player.findMatch s.providers env.importedItems tag.uniqueID with
  | none =>
    simp only [hm]
    exact h
  | some pi =>
    obtain ⟨prov, item⟩ := pi
    simp only [hm]
    exact ⟨rfl, by simp [truthyStr, hsid]⟩

lemma sessionConsistent_report (env : Env) (s : PlayerState) (event : String)
    (h : sessionConsistent s) :
    sessionConsistent (Player.reportPlaybackProgress env s event).1 := by
  unfold Player.reportPlaybackProgress
  split <;> exact h

lemma sessionConsistent_stop (env : Env) (s : PlayerState) (failed : Bool)
    (h : sessionConsistent s) :
    sessionConsistent (Player.stopPlayback env s failed).1 := by
  unfold Player.stopPlayback
  split
  · exact h
  · exact sessionConsistent_reset s

lemma sessionConsistent_process (env : Env) (s : PlayerState) (h : sessionConsistent s) :
    sessionConsistent (Player.Process env s).1 := by
  unfold Player.Process
  split
  · exact h
  split
  · exact h
  · exact sessionConsistent_report env s _ h

lemma sessionConsistent_step (env : Env) (e : Player.Event) (s : PlayerState)
    (h : sessionConsistent s) (hsid : env.sessionId ≠ "") :
    sessionConsistent (Player.step env e s).1 := by
  cases e with
  | started => exact sessionConsistent_reset s
  | avStarted => exact sessionConsistent_startPlayback env s h hsid
  | seek => exact sessionConsistent_report env s _ h
  | seekChapter => exact sessionConsistent_report env s _ h
  | pausedEvt => exact sessionConsistent_report env { s with paused := true } _ h
  | resumed => exact sessionConsistent_report env { s with paused := false } _ h
  | stoppedEvt => exact sessionConsistent_stop env s false h
  | ended => exact sessionConsistent_stop env s false h
  | error => exact sessionConsistent_stop env s true h
  | process => exact sessionConsistent_process env s h

lemma sessionConsistent_addProvider (s : PlayerState) (mp : Option MediaProvider)
    (s' : PlayerState) (hok : Player.AddProvider s mp = .ok s')
    (h : sessionConsistent s) : sessionConsistent s' := by
  cases mp with
  | none => simp [Player.AddProvider] at hok
  | some p =>
    simp [Player.AddProvider] at hok
    rw [← hok]
    exact h

lemma sessionConsistent_removeProvider (s : PlayerState) (mp : Option MediaProvider)
    (s' : PlayerState) (hok : Player.RemoveProvider s mp = .ok s')
    (h : sessionConsistent s) : sessionConsistent s' := by
  cases mp with
  | none => simp [Player.RemoveProvider] at hok
  | some p =>
    simp only [Player.RemoveProvider] at hok
    cases hd : dictDel s.providers p.identifier with
    | error e => rw [hd] at hok; simp at hok
    | ok d =>
      rw [hd] at hok
      simp at hok
      rw [← hok]
      exact h

lemma reachable_sWithProv : Player.Reachable sWithProv :=
  .addProvider (PlayerState.init none) (some provP) sWithProv (.init none) rfl

lemma reachable_sFileSet : Player.Reachable sFileSet :=
  .step envMatch .started sWithProv reachable_sWithProv (by decide)

lemma reachable_sPlaying : Player.Reachable sPlaying :=
  .step envMatch .avStarted sFileSet reachable_sFileSet (by decide)

lemma reachable_sAborted : Player.Reachable sAborted :=
  .step envNoMatch .avStarted sFileSet reachable_sFileSet (by decide)

lemma report_calls_kind (env : Env) (s : PlayerState) (event : String) (c : RemoteCall)
    (hc : c ∈ (Player.reportPlaybackProgress env s event).2) : c.kind = .progress := by
  unfold Player.reportPlaybackProgress at hc
  split at hc
  · simp at hc
  · simp at hc
    subst hc
    rfl

lemma start_calls_kind (env : Env) (s : PlayerState) (c : RemoteCall)
    (hc : c ∈ (Player.startPlayback env s).2) : c.kind = .playing := by
  unfold Player.startPlayback at hc
  split at hc
  · simp at hc
  split at hc
  · simp at hc
  split at hc
  · simp at hc
  rename_i tag _
  split at hc
  · simp at hc
  cases hm : Player.findMatch s.providers env.importedItems tag.uniqueID with
  | none =>
    simp only [hm] at hc
    simp at hc
  | some pi =>
    obtain ⟨prov, item⟩ := pi
    simp only [hm] at hc
    simp at hc
    subst hc
    rfl

lemma process_calls_kind (env : Env) (s : PlayerState) (c : RemoteCall)
    (hc : c ∈ (Player.Process env s).2) : c.kind = .progress := by
  unfold Player.Process at hc
  split at hc
  · simp at hc
  split at hc
  · simp at hc
  · exact report_calls_kind env s _ c hc

lemma stop_calls_item_isSome (env : Env) (s : PlayerState) (failed : Bool) (c : RemoteCall)
    (hc : c ∈ (Player.stopPlayback env s failed).2) : s.item.isSome = true := by
  unfold Player.stopPlayback at hc
  cases hi : s.item with
  | none => rw [hi] at hc; simp at hc
  | some it => rfl

/-- Claim C1, counterexample: after an `onAVStarted` whose provider
scan finds no matching imported item, the reachable state has `itemId`
set (truthy) while item, mediaProvider and playSessionId are all unset,
so the four fields are not an all-or-nothing group and do not all
remain unset on an aborted match. -/
theorem session_fields_not_all_or_nothing_cex :
    Player.Reachable sAborted ∧ truthyStr sAborted.itemId = true ∧ sAborted.item = none
    ∧ sAborted.mediaProvider = none ∧ sAborted.playSessionId = none :=
  ⟨reachable_sAborted, by decide, rfl, rfl, rfl⟩

/-- Claim C1 (amended): on every reachable player state, item,
mediaProvider and playSessionId are all set together or all unset;
`itemId` is not part of the group — `_startPlayback` assigns it before
the provider match and does not clear it when the match aborts. -/
theorem player_session_all_or_nothing (s : PlayerState) (h : Player.Reachable s) :
    s.item.isSome = s.mediaProvider.isSome ∧ s.item.isSome = truthyStr s.playSessionId := by
  induction h with
  | init progressInterval => exact ⟨rfl, rfl⟩
  | step env e s hr hsid ih => exact sessionConsistent_step env e s ih hsid
  | addProvider s mp s' hr hok ih => exact sessionConsistent_addProvider s mp s' hok ih
  | removeProvider s mp s' hr hok ih => exact sessionConsistent_removeProvider s mp s' hok ih

/-- Witness for C1 at the reachable matched state `sPlaying`. -/
theorem player_session_all_or_nothing_witness :
    sPlaying.item.isSome = sPlaying.mediaProvider.isSome
    ∧ sPlaying.item.isSome = truthyStr sPlaying.playSessionId :=
  player_session_all_or_nothing sPlaying reachable_sPlaying

/-- Claim C2, counterexample: stopping the reachable matched state
`sPlaying` (whose last progress report was recorded at time 50) leaves
`lastProgressReport` at `some 50` instead of clearing it back to its
initial unset state. -/
theorem stop_retains_last_progress_report_cex :
    Player.Reachable sPlaying ∧ sPlaying.item.isSome = true
    ∧ sPlaying.lastProgressReport = some 50
    ∧ (Player.step envDue .stoppedEvt sPlaying).1.lastProgressReport = some 50
    ∧ (Player.step envDue .stoppedEvt sPlaying).1.item = none :=
  ⟨reachable_sPlaying, rfl, rfl, rfl, rfl⟩

/-- Claim C2 (amended): a stop (onPlayBackStopped, onPlayBackEnded or
onPlayBackError) with a matched item clears file, item, itemId,
mediaProvider, playSessionId and the pause flag back to their initial
unset values, but the timestamp of the last progress report is retained
unchanged (`_reset` does not touch `_lastProgressReport`). -/
theorem stop_clears_session_fields (env : Env) (e : Player.Event) (s : PlayerState)
    (he : e = .stoppedEvt ∨ e = .ended ∨ e = .error) (hitem : s.item.isSome = true) :
    (Player.step env e s).1.file = none
    ∧ (Player.step env e s).1.item = none
    ∧ (Player.step env e s).1.itemId = none
    ∧ (Player.step env e s).1.mediaProvider = none
    ∧ (Player.step env e s).1.playSessionId = none
    ∧ (Player.step env e s).1.paused = false
    ∧ (Player.step env e s).1.lastProgressReport = s.lastProgressReport := by
  cases hi : s.item with
  | none => rw [hi] at hitem; simp at hitem
  | some it =>
    rcases he with rfl | rfl | rfl <;>
      simp [Player.step, Player.stopPlayback, Player.reset, hi]

/-- Witness for C2: stopping `sPlaying`. -/
theorem stop_clears_session_fields_witness :
    (Player.step envDue .stoppedEvt sPlaying).1.file = none
    ∧ (Player.step envDue .stoppedEvt sPlaying).1.item = none
    ∧ (Player.step envDue .stoppedEvt sPlaying).1.itemId = none
    ∧ (Player.step envDue .stoppedEvt sPlaying).1.mediaProvider = none
    ∧ (Player.step envDue .stoppedEvt sPlaying).1.playSessionId = none
    ∧ (Player.step envDue .stoppedEvt sPlaying).1.paused = false
    ∧ (Player.step envDue .stoppedEvt sPlaying).1.lastProgressReport =
        sPlaying.lastProgressReport :=
  stop_clears_session_fields envDue .stoppedEvt sPlaying (Or.inl rfl) rfl

/-- Claim C3: with a recorded last-report timestamp and a matched item,
`Process` sends a time-update progress report and refreshes the
timestamp when the elapsed time since the last report is at least the
configured interval (equality counts as due), is a strict no-op when
the elapsed time is below the interval, and is a no-op when no report
was ever sent. -/
theorem process_throttle (env : Env) (s : PlayerState) :
    (∀ t, s.lastProgressReport = some t → t ≠ 0 → s.item.isSome = true →
      (s.progressInterval ≤ env.now - t →
        Player.Process env s =
          ({ s with lastProgressReport := some env.now },
            [⟨.progress, Player.preparePlayingData env s false
              (some PLAYING_PROGRESS_EVENT_TIME_UPDATE) false⟩]))
      ∧ (env.now - t < s.progressInterval → Player.Process env s = (s, [])))
    ∧ (s.lastProgressReport = none → Player.Process env s = (s, [])) := by
  constructor
  · intro t ht htz hitem
    obtain ⟨it, hit⟩ := Option.isSome_iff_exists.mp hitem
    constructor
    · intro hdue
      simp [Player.Process, Player.reportPlaybackProgress, truthyNat, ht, htz, hit,
        Nat.not_lt.mpr hdue]
    · intro hlt
      simp [Player.Process, truthyNat, ht, htz, hlt]
  · intro h
    simp [Player.Process, truthyNat, h]

/-- Witness for C3: at `sPlaying` (last report at 50, interval 10) and
time 60 the report is exactly due and is sent. -/
theorem process_throttle_witness :
    Player.Process envDue sPlaying =
      ({ sPlaying with lastProgressReport := some 60 },
        [⟨.progress, Player.preparePlayingData envDue sPlaying false
          (some PLAYING_PROGRESS_EVENT_TIME_UPDATE) false⟩]) :=
  ((process_throttle envDue sPlaying).1 50 rfl (by decide) rfl).1 (by decide)

/-- Claim C7, counterexample: with a server whose authentication fails
(so `ApiPost` returns the failure sentinel), a progress report on the
matched state `sPlaying` still changes the in-memory session state: the
last-progress-report timestamp moves from 50 to the report time 60. -/
theorem report_updates_timestamp_on_failed_call_cex :
    Server.ApiPost srvAuthFail "u" [] =
      (.failure, ["user authentication failed on media provider " ++ srvAuthFail.id])
    ∧ sPlaying.lastProgressReport = some 50
    ∧ (Player.reportPlaybackProgress envDue sPlaying).1.lastProgressReport = some 60 :=
  ⟨rfl, rfl, rfl⟩

/-- Claim C7 (amended): a progress report on a matched session makes
exactly one outbound call (no retry) and leaves every session field
except the last-progress-report timestamp unchanged; the timestamp is
refreshed to the time of the attempt unconditionally — the player never
consults the call's result, so this happens whether the remote call
succeeds or fails. -/
theorem report_no_retry_fields_unchanged (env : Env) (s : PlayerState) (event : String)
    (hitem : s.item.isSome = true) :
    (Player.reportPlaybackProgress env s event).2 =
      [⟨.progress, Player.preparePlayingData env s false (some event) false⟩]
    ∧ (Player.reportPlaybackProgress env s event).1 =
      { s with lastProgressReport := some env.now } := by
  obtain ⟨it, hit⟩ := Option.isSome_iff_exists.mp hitem
  simp [Player.reportPlaybackProgress, hit]

/-- Witness for C7 at `sPlaying` and the time-update event. -/
theorem report_no_retry_fields_unchanged_witness :
    (Player.reportPlaybackProgress envDue sPlaying PLAYING_PROGRESS_EVENT_TIME_UPDATE).2 =
      [⟨.progress, Player.preparePlayingData envDue sPlaying false
        (some PLAYING_PROGRESS_EVENT_TIME_UPDATE) false⟩]
    ∧ (Player.reportPlaybackProgress envDue sPlaying PLAYING_PROGRESS_EVENT_TIME_UPDATE).1 =
      { sPlaying with lastProgressReport := some 60 } :=
  report_no_retry_fields_unchanged envDue sPlaying PLAYING_PROGRESS_EVENT_TIME_UPDATE rfl

/-- Claim C10: a stopped-report POST is only ever emitted by the
stop/end/error callbacks and only while an item is matched; and
`onPlayBackStarted` emits no remote call at all while discarding the
old session's fields. -/
theorem stopped_post_only_on_stop (env : Env) (e : Player.Event) (s : PlayerState) :
    (∀ c, c ∈ (Player.step env e s).2 → c.kind = .stopped →
      (e = .stoppedEvt ∨ e = .ended ∨ e = .error) ∧ s.item.isSome = true)
    ∧ (Player.step env .started s).2 = []
    ∧ (Player.step env .started s).1.item = none
    ∧ (Player.step env .started s).1.itemId = none
    ∧ (Player.step env .started s).1.mediaProvider = none
    ∧ (Player.step env .started s).1.playSessionId = none := by
  refine ⟨?_, rfl, rfl, rfl, rfl, rfl⟩
  intro c hc hk
  cases e with
  | started => simp [Player.step] at hc
  | avStarted =>
    rw [start_calls_kind env s c hc] at hk
    simp at hk
  | seek =>
    rw [report_calls_kind env s _ c hc] at hk
    simp at hk
  | seekChapter =>
    rw [report_calls_kind env s _ c hc] at hk
    simp at hk
  | pausedEvt =>
    rw [report_calls_kind env { s with paused := true } _ c hc] at hk
    simp at hk
  | resumed =>
    rw [report_calls_kind env { s with paused := false } _ c hc] at hk
    simp at hk
  | stoppedEvt => exact ⟨Or.inl rfl, stop_calls_item_isSome env s false c hc⟩
  | ended => exact ⟨Or.inr (Or.inl rfl), stop_calls_item_isSome env s false c hc⟩
  | error => exact ⟨Or.inr (Or.inr rfl), stop_calls_item_isSome env s true c hc⟩
  | process =>
    rw [process_calls_kind env s c hc] at hk
    simp at hk

/-- Witness for C10: the stopped call emitted when `sPlaying` is
stopped. -/
theorem stopped_post_only_on_stop_witness :
    (Player.Event.stoppedEvt = .stoppedEvt ∨ Player.Event.stoppedEvt = .ended
      ∨ Player.Event.stoppedEvt = .error)
    ∧ sPlaying.item.isSome = true :=
  (stopped_post_only_on_stop envDue .stoppedEvt sPlaying).1 cStop (by decide) rfl

end Emby
